import Mathlib

/-!
Verification development for the RAG_SEARCH_ENGINE repository.

The definitions in this file are a shallow embedding of the Python source
under src/src/ragchallenge/api/ (document_processor.py, rag.py, llm.py,
database.py, routers/document_router.py, routers/qa_service.py).
External capabilities (the PDF/DOCX/TXT decoders, the embedding model, the
Gemini chat model, the Chroma similarity index) are passed in as explicit
parameters, since their implementations live outside the repository.
Machine-level details that no claim depends on (async I/O, HTTP transport)
are elided; every function that can raise in Python returns Except here.
-/

/- ================= Basic string helpers ================= -/

/-- Index of the last occurrence of a character in a character list,
mirroring the Python str.rfind used by pathlib when computing a suffix. -/
def lastIdxOf (c : Char) : List Char → Option Nat
  | [] => none
  | a :: as =>
    match lastIdxOf c as with
    | some i => some (i + 1)
    | none => if a = c then some 0 else none

/-- The file extension of a filename, following the pathlib PurePath.suffix
rule used by document_processor.py: the substring from the last dot, but
only when that dot is neither the first nor the last character; otherwise
the empty string. -/
def pySuffix (name : String) : String :=
  match lastIdxOf '.' name.data with
  | some i => if 0 < i ∧ i < name.data.length - 1 then String.mk (name.data.drop i) else ""
  | none => ""

/-- Lower-casing of a string, mirroring Python str.lower on the ASCII
extensions the code compares against. -/
def pyLower (s : String) : String := String.mk (s.data.map Char.toLower)

/-- Python str.strip restricted to whitespace: drop whitespace characters
from both ends.  document_processor.py uses text.strip() to test for
whitespace-only extracted text. -/
def pyStrip (s : String) : String :=
  String.mk (((s.data.dropWhile Char.isWhitespace).reverse.dropWhile Char.isWhitespace).reverse)

/-- Membership test of one character sequence inside another: does the
haystack start with the needle? -/
def seqPrefixOf : List Char → List Char → Bool
  | [], _ => true
  | _ :: _, [] => false
  | a :: as, b :: bs => a == b && seqPrefixOf as bs

/-- Substring containment on character lists, mirroring the Python
expression needle in haystack used by the mock LLM. -/
def seqContains (hay needle : List Char) : Bool :=
  match hay with
  | [] => needle.isEmpty
  | _ :: t => seqPrefixOf needle hay || seqContains t needle

/- ================= Store directories ================= -/

/-- Modelled from the spec: config.py is absent from src/.  Per spec section 6
there is one shared default store directory; database.py (in src/) loads the
default knowledge store from the directory data/vectorstore, and the
processor default path config.data_dir refers to that same shared default
store (the source comment reads: Use the default augmented vectorstore). -/
def data_dir : String := "data/vectorstore"

/-- document_processor.py create_user_vectorstore: the raw per-tenant store
path string, the f-string interpolation of the unsanitized user id (the
mkdir side effect is elided).  The on-disk directory this string denotes is
its OS resolution, storeKey below: an id containing slash or dot-dot
segments escapes data/user_vectorstores/. -/
def create_user_vectorstore (user_id : String) : String :=
  "data/user_vectorstores/" ++ user_id

/-- Split a character sequence into its slash-separated segments. -/
def splitSlash : List Char → List (List Char)
  | [] => [[]]
  | c :: cs =>
    if c = '/' then [] :: splitSlash cs
    else
      match splitSlash cs with
      | s :: ss => (c :: s) :: ss
      | [] => [[c]]

/-- OS resolution of a relative path, on its segment list: empty and
single-dot segments collapse, a dot-dot segment pops the segment before it
(and is kept when there is nothing left to pop).  Path.mkdir, Chroma and
every other file-system consumer act on the resolved directory, so two
path strings with the same resolved segments denote the same on-disk
store. -/
def resolveSegs : List (List Char) → List (List Char) → List (List Char)
  | acc, [] => acc.reverse
  | acc, seg :: rest =>
    if seg = [] ∨ seg = ['.'] then resolveSegs acc rest
    else if seg = ['.', '.'] then
      match acc with
      | [] => resolveSegs [['.', '.']] rest
      | top :: acc2 =>
        if top = ['.', '.'] then resolveSegs (['.', '.'] :: top :: acc2) rest
        else resolveSegs acc2 rest
    else resolveSegs (seg :: acc) rest

/-- The on-disk directory a path string denotes: its OS-resolved segment
list.  The source interpolates raw user ids into path strings, so distinct
strings may share a storeKey: data/user_vectorstores/../vectorstore and
data/vectorstore are the same directory. -/
def storeKey (p : String) : List (List Char) :=
  resolveSegs [] (splitSlash p.data)

/-- A tenant id that names one normal path segment: nonempty, without a
slash, and neither a dot nor a dot-dot segment.  Every uuid4 id the upload
endpoint generates is safe; an unsafe id aliases a directory outside its
own store when the OS resolves the interpolated path. -/
def isSafeSegment (s : String) : Prop :=
  s.data ≠ [] ∧ '/' ∉ s.data ∧ s.data ≠ ['.'] ∧ s.data ≠ ['.', '.']

instance (s : String) : Decidable (isSafeSegment s) := by
  unfold isSafeSegment
  infer_instance

/- ================= Chunking (IngestionPipeline) ================= -/

/-- Configured maximum chunk length (document_processor.py, splitter setup). -/
def chunk_size : Nat := 1000

/-- Configured overlap between adjacent chunks (document_processor.py). -/
def chunk_overlap : Nat := 200

/-- Fuel-driven sliding window over the character list: emit windows of
chunk_size characters stepping by chunk_size minus chunk_overlap.  The fuel
argument only forces structural recursion; it is called with the list
length, which always suffices. -/
def chunkWindowAux : Nat → List Char → List (List Char)
  | _, [] => []
  | 0, c :: cs => [c :: cs]
  | fuel + 1, c :: cs =>
    if (c :: cs).length ≤ chunk_size then [c :: cs]
    else (c :: cs).take chunk_size :: chunkWindowAux fuel ((c :: cs).drop (chunk_size - chunk_overlap))

/-- Modelled from the spec: the splitter itself is
langchain.text_splitter.RecursiveCharacterTextSplitter, which is external
to this repository (document_processor.py only configures it with
chunk_size 1000, chunk_overlap 200 and the separator list).  Spec section
4.1 describes the result: each chunk has character length at most the
configured maximum and adjacent chunks of one document share the configured
overlap of 200 characters; section 8 fixes the concrete shape on
separator-free text (a 2400 character document yields three chunks with a
200 character overlap between adjacent chunks).  This is that sliding
window on the character sequence. -/
def chunkWindow (cs : List Char) : List (List Char) :=
  chunkWindowAux cs.length cs

/-- Modelled from the spec: split_text of the configured splitter, see
chunkWindow. -/
def split_text (text : String) : List String :=
  (chunkWindow text.data).map (fun cs => String.mk cs)

/-- The last n elements of a list. -/
def lastN (n : Nat) (l : List α) : List α := l.drop (l.length - n)

/- ================= Chunk records ================= -/

/-- A chunked document as built by create_documents_from_text: the chunk
text plus the metadata mapping written there (source filename, chunk_id,
document_type).  The nested metadata dictionary is flattened into fields. -/
structure LangchainDocument where
  page_content : String
  source : String
  chunk_id : Nat
  document_type : String
deriving DecidableEq

/-- Helper for create_documents_from_text: the enumerate loop, carrying the
running index. -/
def mkDocs (filename : String) : Nat → List String → List LangchainDocument
  | _, [] => []
  | i, chunk :: rest =>
    { page_content := chunk
      source := filename
      chunk_id := i
      document_type := "uploaded_document" } :: mkDocs filename (i + 1) rest

/-- document_processor.py create_documents_from_text: split the text into
chunks and attach metadata; chunk_id is the 0-based position of the chunk
in the enumeration of the split. -/
def create_documents_from_text (text : String) (filename : String) : List LangchainDocument :=
  mkDocs filename 0 (split_text text)

/- ================= Extraction and ingestion pipeline ================= -/

/-- The structured failures raised (as HTTPException with status 400)
along the upload path, one constructor per raise site in
document_processor.py. -/
inductive ProcErr where
  /-- process_and_store_document, allowed-extensions check: File type not supported. -/
  | file_type_not_supported (ext : String)
  /-- extract_text_from_file, fall-through branch: Unsupported file type. -/
  | unsupported_file_type (ext : String)
  /-- extract_text_from_pdf, extract_text_from_docx or extract_text_from_txt
  when the underlying decoder raised: Error processing PDF / DOCX / TXT. -/
  | error_processing (kind : String) (msg : String)
  /-- process_and_store_document: No text content found in the file. -/
  | no_text_content
deriving DecidableEq

/-- The allowed-extensions list of process_and_store_document. -/
def allowed_extensions : List String := [".pdf", ".docx", ".txt", ".md"]

/-- document_processor.py extract_text_from_file: dispatch on the lowercased
filename suffix.  The decoder outcomes pdfR, docxR and txtR stand for the
external PyPDF2, python-docx and file-read calls: ok carries the text those
libraries produced, error the message of the exception they raised. -/
def extract_text_from_file (pdfR docxR txtR : Except String String) (filename : String) :
    Except ProcErr String :=
  let ext := pyLower (pySuffix filename)
  if ext = ".pdf" then pdfR.mapError (ProcErr.error_processing "PDF")
  else if ext = ".docx" then docxR.mapError (ProcErr.error_processing "DOCX")
  else if ext = ".txt" ∨ ext = ".md" then txtR.mapError (ProcErr.error_processing "TXT")
  else .error (ProcErr.unsupported_file_type ext)

/-- The validation and extraction portion of process_and_store_document
(lines 145 to 163): the allowed-extensions check, then extraction, then the
rejection of empty or whitespace-only text. -/
def extract_and_check (pdfR docxR txtR : Except String String) (filename : String) :
    Except ProcErr String :=
  let ext := pyLower (pySuffix filename)
  if ext ∈ allowed_extensions then
    match extract_text_from_file pdfR docxR txtR filename with
    | .error e => .error e
    | .ok text => if pyStrip text = "" then .error ProcErr.no_text_content else .ok text
  else .error (ProcErr.file_type_not_supported ext)

/-- The store directory an ingestion writes to, shared between
process_and_store_document (the if user_id branch) and the upload events
model below.  A Python-falsy user id (None or the empty string) selects the
default store. -/
def uploadPathOf (user_id : Option String) : String :=
  match user_id with
  | some uid => if uid = "" then data_dir else create_user_vectorstore uid
  | none => data_dir

/-- The success payload of process_and_store_document (the status and
message strings are constants of the source and carry no information beyond
success). -/
structure UploadResult where
  document_name : String
  chunks_created : Nat
  vectorstore_path : String
  text_preview : String
deriving DecidableEq

/-- document_processor.py process_and_store_document: validate the
extension, extract the text, reject empty text, chunk into documents and
select the target store (per-tenant when user_id is truthy, the default
store otherwise).  The Chroma write and persist calls are elided; the
returned vectorstore_path is the store the records are written to. -/
def process_and_store_document (pdfR docxR txtR : Except String String)
    (user_id : Option String) (filename : String) : Except ProcErr UploadResult :=
  match extract_and_check pdfR docxR txtR filename with
  | .error e => .error e
  | .ok text =>
    let documents := create_documents_from_text text filename
    .ok { document_name := filename
          chunks_created := documents.length
          vectorstore_path := uploadPathOf user_id
          text_preview := if 200 < text.length then text.take 200 ++ "..." else text }

/-- routers/document_router.py upload_document: when no user_id query
parameter is supplied (or it is empty, hence Python-falsy) a fresh uuid4
string is generated and used as the user id; the processor is then always
called with that id.  The fresh uuid is passed in as the parameter fresh. -/
def upload_document (fresh : String) (user_id : Option String)
    (pdfR docxR txtR : Except String String) (filename : String) : Except ProcErr UploadResult :=
  let uid := match user_id with
    | none => fresh
    | some u => if u = "" then fresh else u
  process_and_store_document pdfR docxR txtR (some uid) filename

/- ================= Claim-side extraction taxonomy (spec section 4.1) ============ -/

/-- The two error kinds named by the spec for extraction (section 4.1). -/
inductive DocError where
  | unsupportedMediaType
  | extractionFailed
deriving DecidableEq

/-- Classification of the source error sites into the two kinds of the spec
taxonomy: both unsupported-extension raises declare an unsupported media
type; decoder failures and empty extracted text are extraction failures. -/
def errClass : ProcErr → DocError
  | .file_type_not_supported _ => DocError.unsupportedMediaType
  | .unsupported_file_type _ => DocError.unsupportedMediaType
  | .error_processing _ _ => DocError.extractionFailed
  | .no_text_content => DocError.extractionFailed

/-- Claim-side specification, written from the words of claim C7: extraction
fails with UnsupportedMediaType exactly when the declared type (the
lowercased filename suffix; markdown files use the .md suffix) is outside
the supported set, fails with ExtractionFailed when the underlying decoder
errors or the content is empty or whitespace-only, and otherwise returns
the text. -/
def extraction_spec (pdfR docxR txtR : Except String String) (filename : String) :
    Except DocError String :=
  let ext := pyLower (pySuffix filename)
  if ext ∈ [".pdf", ".docx", ".txt", ".md"] then
    let raw := if ext = ".pdf" then pdfR else if ext = ".docx" then docxR else txtR
    match raw with
    | .error _ => .error DocError.extractionFailed
    | .ok text => if pyStrip text = "" then .error DocError.extractionFailed else .ok text
  else .error DocError.unsupportedMediaType

/- ================= TXT extraction and encodings ================= -/

/-- Latin-1 decoding of a byte sequence: every byte maps to the Unicode
character of the same code point, so the decode is total and one character
long per byte. -/
def latin1_decode (bs : List (Fin 256)) : String :=
  String.mk (bs.map (fun b => Char.ofNat b.val))

/-- document_processor.py extract_text_from_txt: read the file as UTF-8 and,
when that raises UnicodeDecodeError, re-read it as latin-1.  The external
UTF-8 codec is the parameter utf8_decode (none models a raised
UnicodeDecodeError); the byte content of the file is bs. -/
def extract_text_from_txt (utf8_decode : List (Fin 256) → Option String)
    (bs : List (Fin 256)) : Except String String :=
  match utf8_decode bs with
  | some text => .ok text
  | none => .ok (latin1_decode bs)

/- ================= RAG model resolution (rag.py) ================= -/

/-- A QuestionAnsweringWithQueryExpansion instance as far as store scoping
is concerned: the single knowledge vector database it retrieves from,
identified by its persist directory.  The prompt template, the paraphraser
and the LLM handle are process-wide constants shared by every instance and
carry no store information, so they are not modelled. -/
structure RagModel where
  storePath : String
deriving DecidableEq

/-- rag.py get_rag_model: the default model over the store directory that
database.py loads (data/vectorstore). -/
def get_rag_model : RagModel := { storePath := data_dir }

/-- rag.py get_user_rag_model.  dirExists abstracts the
Path.exists check on the file system and loadFails the possibility that
opening the Chroma store raises; on a raised load error the source returns
the default model (the except branch), and when the directory is absent or
the user id is Python-falsy it also returns the default model. -/
def get_user_rag_model (dirExists loadFails : String → Bool) (user_id : Option String) :
    RagModel :=
  match user_id with
  | some uid =>
    if uid = "" then get_rag_model
    else
      let p := create_user_vectorstore uid
      if dirExists p then
        if loadFails p then get_rag_model else { storePath := p }
      else get_rag_model
  | none => get_rag_model

/-- rag.py get_combined_rag_model: despite its name it builds a model over
the user store alone when that store exists and loads (the source carries a
TODO for true combined search), and falls back to the default model
otherwise. -/
def get_combined_rag_model (dirExists loadFails : String → Bool) (user_id : Option String) :
    RagModel :=
  match user_id with
  | some uid =>
    if uid = "" then get_rag_model
    else
      let p := create_user_vectorstore uid
      if dirExists p then
        if loadFails p then get_rag_model else { storePath := p }
      else get_rag_model
  | none => get_rag_model

/-- The set of stores a model retrieves from: each
QuestionAnsweringWithQueryExpansion holds exactly one knowledge vector
database, so every retrieval of the model searches that one store. -/
def searchTargets (m : RagModel) : List String := [m.storePath]

/- ================= Store contents across uploads ================= -/

/-- One call of process_and_store_document, as an event: the user id the
processor was invoked with, the uploaded filename and its extracted text. -/
structure UploadEvent where
  user_id : Option String
  filename : String
  text : String

/-- The records accumulated in the on-disk store that the path string p
denotes, after a sequence of successful ingestions: an upload lands in that
store exactly when the OS resolution of its target path equals the OS
resolution of p (path aliasing included).  Each record is paired with the
user id of the upload that produced it (a provenance tag used to state
isolation; the tag is not part of the stored metadata). -/
def recordsAt : List UploadEvent → String → List (Option String × LangchainDocument)
  | [], _ => []
  | e :: es, p =>
    (if storeKey (uploadPathOf e.user_id) == storeKey p then
      (create_documents_from_text e.text e.filename).map (fun d => (e.user_id, d))
    else []) ++ recordsAt es p

/-- Whether the on-disk directory that p denotes exists after the given
uploads: stores are created on first write (create_user_vectorstore calls
mkdir), and existence is a property of the OS-resolved directory, not of
the path string. -/
def dirExistsAfter (events : List UploadEvent) (p : String) : Bool :=
  events.any (fun e => storeKey (uploadPathOf e.user_id) == storeKey p)

/- ================= Answer backend (llm.py) ================= -/

/-- The tagged backend variant fixed once at module import of llm.py. -/
inductive LLMBackend where
  | gemini
  | mockLLM
deriving DecidableEq

/-- llm.py module-level try/except around the ChatGoogleGenerativeAI
constructor: the Gemini backend when construction succeeds, the MockLLM
fallback when it raises.  The choice is made once per process. -/
def LLM_init (geminiInitOk : Bool) : LLMBackend :=
  if geminiInitOk then LLMBackend.gemini else LLMBackend.mockLLM

/-- MockLLM response template when retrieval context was detected
(llm.py lines 47 to 62). -/
def mock_context_response (context user_question : String) : String :=
  "Based on the retrieved document context, here\x27s the answer to your question: \"" ++
  user_question ++ "\"\n\n**Answer:**\n" ++
  "The RAG system has successfully retrieved relevant information from your uploaded documents. \n\n" ++
  "**Context Summary:**\n" ++ context.take 500 ++
  (if 500 < context.length then "..." else "") ++
  "\n\n**Note:** This is a mock response. For AI-powered answers using Google Gemini, " ++
  "please ensure your Google API key is properly configured in the `.env` file.\n\n" ++
  "To get full AI-generated responses:\n1. Set `GOOGLE_API_KEY` in your `.env` file\n" ++
  "2. Restart the application\n3. The system will automatically use Google Gemini for intelligent responses\n\n" ++
  "The RAG pipeline is working correctly - documents are being retrieved based on your query."

/-- MockLLM response template when no context was detected
(llm.py lines 64 to 77). -/
def mock_insufficient_response (user_question : String) : String :=
  "I received your question: \"" ++ user_question ++ "\"\n\n" ++
  "However, I don\x27t have sufficient context from the documents to provide a detailed answer. " ++
  "This could mean:\n\n1. No documents have been uploaded yet\n" ++
  "2. The uploaded documents don\x27t contain information related to your query\n" ++
  "3. The query expansion didn\x27t find relevant chunks\n\n" ++
  "**Note:** This is a mock LLM response. For better results:\n" ++
  "- Ensure documents are uploaded via the `/documents/upload` endpoint\n" ++
  "- Verify your Google API key is configured for Gemini integration\n" ++
  "- Try rephrasing your question to match document content\n\n" ++
  "The system is ready to process your documents once they are uploaded."

/-- MockLLM generation (llm.py _generate): scan the prompt messages for a
context message (contains the word context after lowercasing and is longer
than 100 characters) and a question message (shorter than 500 characters),
defaulting the question to the last message, then answer from the matching
deterministic template.  It is a total function of the messages: the mock
backend never raises. -/
def mock_generate (messages : List String) : String :=
  let st := messages.foldl
    (fun (st : String × String) content =>
      if seqContains (pyLower content).data "context".data = true ∧ 100 < content.length then
        (content, st.2)
      else if content.length < 500 then (st.1, content)
      else st)
    ("", "")
  let context := st.1
  let user_question :=
    if st.2 = "" ∧ messages ≠ [] then (messages.getLast?).getD "" else st.2
  if context = "" then mock_insufficient_response user_question
  else mock_context_response context user_question

/-- Invocation of the selected backend on the prompt messages.  The live
Gemini call is external: its outcome for this one call is the parameter
geminiResult (ok with the generated text, or error with the raised
exception message).  The mock branch is the in-repository MockLLM. -/
def LLM_invoke (backend : LLMBackend) (geminiResult : Except String String)
    (messages : List String) : Except String String :=
  match backend with
  | LLMBackend.gemini => geminiResult
  | LLMBackend.mockLLM => .ok (mock_generate messages)

/-- routers/qa_service.py generate_answer: run the RAG model over the user
message and wrap any raised exception into HTTPException status 500.  The
orchestrator answer_question lives in interfaces/ragmodelexpanded.py, which
is absent from src/; nothing in the files under src/ catches an exception
raised by the LLM call before this handler, so it is modelled as invoking
the selected backend and letting its error propagate to the except branch
here. -/
def generate_answer (geminiInitOk : Bool) (geminiResult : Except String String)
    (messages : List String) : Except Nat String :=
  match LLM_invoke (LLM_init geminiInitOk) geminiResult messages with
  | .ok answer => .ok answer
  | .error _ => .error 500

/- ================= Document deletion (document_processor.py) ============ -/

/-- A record as held by a Chroma collection: the record id assigned by the
store at insertion plus the metadata fields deletion filters on. -/
structure ChromaRecord where
  rid : Nat
  source : String
  chunk_id : Nat
deriving DecidableEq

/-- document_processor.py delete_user_document: 404 when the user store
directory does not exist; otherwise fetch the ids of the records whose
source metadata equals document_name, 404 when there are none, and delete
exactly those ids.  stores maps a store directory to its record list (none
when the directory is absent); the result is the new record list of the
store together with the deleted_chunks count of the response. -/
def delete_user_document (stores : String → Option (List ChromaRecord))
    (user_id document_name : String) : Except Nat (List ChromaRecord × Nat) :=
  match stores (create_user_vectorstore user_id) with
  | none => .error 404
  | some recs =>
    let matching := recs.filter (fun r => r.source == document_name)
    if matching.isEmpty then .error 404
    else
      let ids := matching.map (fun r => r.rid)
      .ok (recs.filter (fun r => !(decide (r.rid ∈ ids))), matching.length)

/-- Claim-side deletion specification, written from the words of claim C8
and spec section 4.3: remove every record whose source metadata matches the
given name, fail with NotFound when zero records match, and report the
number of removed records. -/
def delete_document_spec (recs : List ChromaRecord) (document_name : String) :
    Except Nat (List ChromaRecord × Nat) :=
  let cnt := recs.countP (fun r => r.source == document_name)
  if cnt = 0 then .error 404
  else .ok (recs.filter (fun r => !(r.source == document_name)), cnt)

/- ================= Lemmas: chunk overlap ================= -/

/-- The first chunk_overlap characters of the first chunk of a nonempty
text are the first chunk_overlap characters of the text. -/
theorem chunkWindowAux_head_take (fuel : Nat) (ds : List Char) (hne : ds ≠ []) :
    ((chunkWindowAux fuel ds).getD 0 []).take chunk_overlap = ds.take chunk_overlap := by
  match fuel, ds with
  | _, [] => exact absurd rfl hne
  | 0, c :: cs => rfl
  | fuel + 1, c :: cs =>
    by_cases hlen : (c :: cs).length ≤ chunk_size
    · rw [chunkWindowAux, if_pos hlen]
      rfl
    · rw [chunkWindowAux, if_neg hlen]
      simp only [List.getD_cons_zero]
      rw [List.take_take]
      have hmin : min chunk_overlap chunk_size = chunk_overlap := by decide
      rw [hmin]

/-- Overlap invariant of the sliding window, by induction on the fuel: the
last chunk_overlap characters of any chunk other than the final one are the
first chunk_overlap characters of the next chunk. -/
theorem chunkWindowAux_overlap : ∀ (fuel : Nat) (cs : List Char) (i : Nat),
    cs.length ≤ fuel → i + 1 < (chunkWindowAux fuel cs).length →
    lastN chunk_overlap ((chunkWindowAux fuel cs).getD i []) =
      ((chunkWindowAux fuel cs).getD (i + 1) []).take chunk_overlap := by
  intro fuel
  induction fuel with
  | zero =>
    intro cs i hle hlt
    have hnil : cs = [] := List.length_eq_zero.mp (Nat.le_zero.mp hle)
    subst hnil
    simp [chunkWindowAux] at hlt
  | succ fuel ih =>
    intro cs i hle hlt
    match cs with
    | [] => simp [chunkWindowAux] at hlt
    | c :: cs0 =>
      have hstep : 0 < chunk_size - chunk_overlap := by decide
      by_cases hlen : (c :: cs0).length ≤ chunk_size
      · rw [chunkWindowAux, if_pos hlen] at hlt
        simp at hlt
      · have hgt : chunk_size < (c :: cs0).length := Nat.lt_of_not_le hlen
        rw [chunkWindowAux, if_neg hlen] at hlt ⊢
        have hlendrop : ((c :: cs0).drop (chunk_size - chunk_overlap)).length =
            (c :: cs0).length - (chunk_size - chunk_overlap) := List.length_drop ..
        match i with
        | 0 =>
          simp only [List.getD_cons_zero, List.getD_cons_succ]
          have hds : ((c :: cs0).drop (chunk_size - chunk_overlap)) ≠ [] := by
            intro hnil
            rw [hnil] at hlendrop
            simp only [List.length_nil] at hlendrop
            omega
          rw [chunkWindowAux_head_take fuel _ hds]
          have htl : ((c :: cs0).take chunk_size).length = chunk_size := by
            rw [List.length_take]
            omega
          rw [lastN, htl]
          rw [List.drop_take]
          have harith : chunk_size - (chunk_size - chunk_overlap) = chunk_overlap := by decide
          rw [harith]
        | i + 1 =>
          simp only [List.getD_cons_succ] at hlt ⊢
          simp only [List.length_cons] at hlt
          apply ih
          · rw [hlendrop]
            omega
          · omega

/-- Claim C9: for every document whose text length exceeds the configured
overlap of 200 characters, and for every chunk of that document except the
last, the final 200 characters of the chunk equal the first 200 characters
of the next chunk in sequence order.  The chunks of a document are the
windows of chunkWindow over its character sequence (split_text maps them
back to strings). -/
theorem chunk_overlap_adjacent (cs : List Char) (i : Nat)
    (_hlen : chunk_overlap < cs.length) (hi : i + 1 < (chunkWindow cs).length) :
    lastN chunk_overlap ((chunkWindow cs).getD i []) =
      ((chunkWindow cs).getD (i + 1) []).take chunk_overlap :=
  chunkWindowAux_overlap cs.length cs i (Nat.le_refl _) hi

set_option maxRecDepth 100000 in
/-- Witness for claim C9 at a concrete 1801-character document, which
splits into three chunks. -/
theorem chunk_overlap_adjacent_witness :
    chunk_overlap < (List.replicate 1801 'a').length ∧
    0 + 1 < (chunkWindow (List.replicate 1801 'a')).length ∧
    lastN chunk_overlap ((chunkWindow (List.replicate 1801 'a')).getD 0 []) =
      ((chunkWindow (List.replicate 1801 'a')).getD (0 + 1) []).take chunk_overlap :=
  ⟨by decide, by decide, chunk_overlap_adjacent _ 0 (by decide) (by decide)⟩

/- ================= Lemmas: store paths ================= -/

/-- No per-tenant store directory coincides with the default store
directory. -/
theorem create_user_vectorstore_ne_data_dir (u : String) :
    create_user_vectorstore u ≠ data_dir := by
  intro h
  have hl := congrArg String.length h
  rw [create_user_vectorstore, String.length_append] at hl
  have h1 : ("data/user_vectorstores/" : String).length = 23 := rfl
  have h2 : data_dir.length = 16 := rfl
  omega

/-- Every record in the on-disk store that p denotes was written by an
upload whose target path resolves to that same directory. -/
theorem recordsAt_tag : ∀ (es : List UploadEvent) (p : String)
    (pr : Option String × LangchainDocument),
    pr ∈ recordsAt es p → storeKey (uploadPathOf pr.1) = storeKey p := by
  intro es
  induction es with
  | nil =>
    intro p pr h
    simp [recordsAt] at h
  | cons e es ih =>
    intro p pr h
    simp only [recordsAt] at h
    rcases List.mem_append.mp h with h1 | h2
    · by_cases hc : storeKey (uploadPathOf e.user_id) == storeKey p
      · rw [if_pos hc] at h1
        rcases List.mem_map.mp h1 with ⟨d, _, rfl⟩
        exact eq_of_beq hc
      · rw [if_neg hc] at h1
        simp at h1
    · exact ih p pr h2

/-- splitSlash of a slash-free character sequence is that one segment. -/
theorem splitSlash_noSlash (l : List Char) (h : '/' ∉ l) : splitSlash l = [l] := by
  induction l with
  | nil => rfl
  | cons c cs ih =>
    have hc : c ≠ '/' := fun hh => h (hh ▸ List.mem_cons_self c cs)
    have hcs : '/' ∉ cs := fun hh => h (List.mem_cons_of_mem c hh)
    rw [splitSlash, if_neg hc, ih hcs]

/-- splitSlash peels one slash-free segment before a slash. -/
theorem splitSlash_seg_slash (seg l : List Char) (hseg : '/' ∉ seg) :
    splitSlash (seg ++ '/' :: l) = seg :: splitSlash l := by
  induction seg with
  | nil =>
    show splitSlash ('/' :: l) = [] :: splitSlash l
    rw [splitSlash, if_pos rfl]
  | cons c cs ih =>
    have hc : c ≠ '/' := fun hh => hseg (hh ▸ List.mem_cons_self c cs)
    have hcs : '/' ∉ cs := fun hh => hseg (List.mem_cons_of_mem c hh)
    show splitSlash (c :: (cs ++ '/' :: l)) = (c :: cs) :: splitSlash l
    rw [splitSlash, if_neg hc, ih hcs]

/-- The per-tenant path of a path-safe tenant id resolves to the three
segments data, user_vectorstores, id. -/
theorem storeKey_user_safe (A : String) (hA : isSafeSegment A) :
    storeKey (create_user_vectorstore A) =
      ["data".data, "user_vectorstores".data, A.data] := by
  obtain ⟨h1, h2, h3, h4⟩ := hA
  have hdata : ("data/user_vectorstores/" ++ A).data =
      "data".data ++ '/' :: ("user_vectorstores".data ++ '/' :: A.data) := by
    rw [String.data_append]
    rfl
  rw [storeKey, create_user_vectorstore, hdata]
  rw [splitSlash_seg_slash _ _ (by decide)]
  rw [splitSlash_seg_slash _ _ (by decide)]
  rw [splitSlash_noSlash A.data h2]
  simp [resolveSegs, h1, h3, h4]

/-- The default store directory resolves to the two segments data,
vectorstore. -/
theorem storeKey_data_dir : storeKey data_dir = ["data".data, "vectorstore".data] := by
  decide

/-- The model resolved for a tenant-scoped question searches either the
default store directory or that tenant respective store directory, never a
third one. -/
theorem get_user_rag_model_storePath (dE lF : String → Bool) (uid : String) :
    (get_user_rag_model dE lF (some uid)).storePath = data_dir ∨
    (get_user_rag_model dE lF (some uid)).storePath = create_user_vectorstore uid := by
  unfold get_user_rag_model get_rag_model
  by_cases h1 : uid = ""
  · simp [h1]
  · simp only [h1, if_neg]
    by_cases h2 : dE (create_user_vectorstore uid)
    · by_cases h3 : lF (create_user_vectorstore uid) <;> simp [h1, h2, h3]
    · simp [h1, h2]

/- ================= Claim C1 ================= -/

/-- Counterexample to claim C1: with the tenant store directory absent, a
tenant-scoped question does not fail with a StoreNotFound error; the
resolution silently yields the default model, whose store is the default
directory, a store other than the tenant one. -/
theorem absent_tenant_store_falls_back_to_default :
    (get_user_rag_model (fun _ => false) (fun _ => false) (some "t1")).storePath = data_dir ∧
    data_dir ≠ create_user_vectorstore "t1" :=
  ⟨rfl, by decide⟩

/-- Claim C1 as amended: when the tenant store directory has never been
created, a tenant-scoped question resolves to the default RAG model (and is
answered from the default store); no error is raised. -/
theorem tenant_scope_absent_store_uses_default (dirExists loadFails : String → Bool)
    (uid : String) (h : dirExists (create_user_vectorstore uid) = false) :
    get_user_rag_model dirExists loadFails (some uid) = get_rag_model := by
  unfold get_user_rag_model
  by_cases h1 : uid = ""
  · simp [h1]
  · simp [h1, h]

/-- Witness for the amended claim C1 at a concrete tenant id and an empty
file system. -/
theorem tenant_scope_absent_store_uses_default_witness :
    ((fun (_ : String) => false) (create_user_vectorstore "t1") = false) ∧
    get_user_rag_model (fun _ => false) (fun _ => false) (some "t1") = get_rag_model :=
  ⟨rfl, tenant_scope_absent_store_uses_default (fun _ => false) (fun _ => false) "t1" rfl⟩

/- ================= Claim C2 ================= -/

/-- Counterexample to claim C2: with the tenant store present and loadable,
the combined-scope model searches only the tenant store; the default store
is not in its target set, so the resolved target set is not the claimed
two-store list. -/
theorem combined_scope_ignores_default_store :
    searchTargets (get_combined_rag_model (fun _ => true) (fun _ => false) (some "t1")) =
      [create_user_vectorstore "t1"] ∧
    [create_user_vectorstore "t1"] ≠ [create_user_vectorstore "t1", data_dir] :=
  ⟨rfl, by decide⟩

/-- Claim C2 as amended: a combined-scope question with a nonempty tenant id
searches exactly one store: the tenant store when its directory exists and
loads, and the default store alone otherwise (including when the tenant
store is absent). -/
theorem combined_scope_resolution (dirExists loadFails : String → Bool) (uid : String)
    (h : uid ≠ "") :
    searchTargets (get_combined_rag_model dirExists loadFails (some uid)) =
      (if dirExists (create_user_vectorstore uid) && !(loadFails (create_user_vectorstore uid))
       then [create_user_vectorstore uid] else [data_dir]) := by
  unfold get_combined_rag_model get_rag_model searchTargets
  by_cases h2 : dirExists (create_user_vectorstore uid)
  · by_cases h3 : loadFails (create_user_vectorstore uid) <;> simp [h, h2, h3]
  · simp [h, h2]

/-- Witness for the amended claim C2 at a concrete tenant id whose store
exists and loads. -/
theorem combined_scope_resolution_witness :
    ("t1" : String) ≠ "" ∧
    searchTargets (get_combined_rag_model (fun _ => true) (fun _ => false) (some "t1")) =
      (if (fun (_ : String) => true) (create_user_vectorstore "t1") &&
          !((fun (_ : String) => false) (create_user_vectorstore "t1"))
       then [create_user_vectorstore "t1"] else [data_dir]) :=
  ⟨by decide, combined_scope_resolution (fun _ => true) (fun _ => false) "t1" (by decide)⟩

/- ================= Claim C3 ================= -/

/-- Tenant isolation holds exactly on path-safe tenant ids: for distinct
tenants A and B whose ids are single normal path segments (every
endpoint-generated uuid4 id is), no record ingested under A is in the pool
a tenant-B-scoped search runs over, whatever uploads happened and whether
or not the B store exists. -/
theorem tenant_isolation_for_safe_ids (events : List UploadEvent) (loadFails : String → Bool)
    (A B : String) (hA : isSafeSegment A) (hB : isSafeSegment B) (hAB : A ≠ B) :
    (recordsAt events
        ((get_user_rag_model (dirExistsAfter events) loadFails (some B)).storePath)).all
      (fun pr => !(pr.1 == some A)) = true := by
  rw [List.all_eq_true]
  intro pr hpr
  simp only [Bool.not_eq_true', beq_eq_false_iff_ne]
  intro hEq
  have htag := recordsAt_tag events _ pr hpr
  rw [hEq] at htag
  have hAne : A ≠ "" := by
    intro h
    exact hA.1 (by rw [h])
  simp only [uploadPathOf, if_neg hAne] at htag
  rcases get_user_rag_model_storePath (dirExistsAfter events) loadFails B with hcase | hcase
  · rw [hcase, storeKey_user_safe A hA, storeKey_data_dir] at htag
    have hl := congrArg List.length htag
    simp at hl
  · rw [hcase, storeKey_user_safe A hA, storeKey_user_safe B hB] at htag
    have hdata : A.data = B.data := by
      simpa using htag
    exact hAB (by cases A; cases B; exact congrArg String.mk hdata)

/-- Claim C3: evaluation of the code at the failing input of the path
traversal bug.  The unsanitized tenant id ../vectorstore is OS-resolved
into the default store directory, so an upload under that tenant writes
its chunks into data/vectorstore; a later question under the distinct
tenant bob, whose store is absent, falls back to the default model and
searches exactly that pool, which consists of the record ingested under
the other tenant — content ingested under tenant A is returned by a
tenant(B)-scoped search, violating the claimed isolation. -/
theorem tenant_isolation_path_traversal :
    ("../vectorstore" : String) ≠ "" ∧ ("../vectorstore" : String) ≠ "bob" ∧
    storeKey (create_user_vectorstore "../vectorstore") = storeKey data_dir ∧
    (recordsAt [⟨some "../vectorstore", "secret.txt", "alpha secret"⟩]
        ((get_user_rag_model
            (dirExistsAfter [⟨some "../vectorstore", "secret.txt", "alpha secret"⟩])
            (fun _ => false) (some "bob")).storePath)).map (fun pr => pr.1)
      = [some "../vectorstore"] :=
  ⟨by decide, by decide, by decide, by decide⟩

/- ================= Claim C4 ================= -/

/-- The chunk ids assigned by the enumerate loop starting at i are the
consecutive integers from i. -/
theorem mkDocs_map_chunk_id (filename : String) :
    ∀ (i : Nat) (cs : List String),
      (mkDocs filename i cs).map (fun d => d.chunk_id) = List.range' i cs.length := by
  intro i cs
  induction cs generalizing i with
  | nil => rfl
  | cons c rest ih =>
    simp only [mkDocs, List.map_cons, List.length_cons, List.range'_succ]
    rw [ih]

/-- Counterexample to claim C4: two documents ingested into the same store
both receive a record with chunk_id 0 — the chunk_id is not derived from
the document id, so records of different documents in one store collide. -/
theorem chunk_id_collision_across_documents :
    (recordsAt [⟨some "u", "a.txt", "alpha"⟩, ⟨some "u", "b.txt", "beta"⟩]
        (create_user_vectorstore "u")).map
      (fun pr => (pr.2.source, pr.2.chunk_id)) = [("a.txt", 0), ("b.txt", 0)] ∧
    ("a.txt" : String) ≠ "b.txt" := by
  constructor
  · rfl
  · decide

/-- Claim C4 as amended: the chunk_id assigned at ingestion is the 0-based
sequence index of the chunk within its own document alone (not combined
with a document id), so chunk ids are pairwise distinct among the records
of one document, while records of different documents in the same store
reuse the same ids. -/
theorem chunk_ids_are_sequence_indices (text filename : String) :
    (create_documents_from_text text filename).map (fun d => d.chunk_id) =
      List.range (split_text text).length ∧
    ((create_documents_from_text text filename).map (fun d => d.chunk_id)).Nodup := by
  have h : (create_documents_from_text text filename).map (fun d => d.chunk_id) =
      List.range (split_text text).length := by
    rw [create_documents_from_text, mkDocs_map_chunk_id, List.range_eq_range']
  exact ⟨h, h ▸ List.nodup_range _⟩

/- ================= Claim C5 ================= -/

/-- Counterexample to claim C5: an upload through the upload endpoint with
no tenant id supplied is written to a freshly generated per-tenant store,
not to the default store. -/
theorem upload_without_tenant_goes_to_fresh_store :
    (upload_document "f" none (.ok "body") (.ok "body") (.ok "body") "notes.txt").map
      (fun r => r.vectorstore_path) = .ok (create_user_vectorstore "f") ∧
    create_user_vectorstore "f" ≠ data_dir := by
  constructor
  · rfl
  · decide

/-- Claim C5 as amended: the upload endpoint generates a fresh tenant id
when none is supplied and writes the records to that new per-tenant store,
which is never the default store; only a direct processor call with an
absent tenant id writes to the default store. -/
theorem upload_fresh_tenant_routing (fresh : String) (pdfR docxR txtR : Except String String)
    (filename : String) (h : fresh ≠ "") :
    ((upload_document fresh none pdfR docxR txtR filename).map
        (fun r => r.vectorstore_path)).toOption.getD (create_user_vectorstore fresh) =
      create_user_vectorstore fresh ∧
    create_user_vectorstore fresh ≠ data_dir ∧
    ((process_and_store_document pdfR docxR txtR none filename).map
        (fun r => r.vectorstore_path)).toOption.getD data_dir = data_dir := by
  refine ⟨?_, create_user_vectorstore_ne_data_dir fresh, ?_⟩
  · cases hE : extract_and_check pdfR docxR txtR filename <;>
      simp only [upload_document, process_and_store_document, hE, uploadPathOf, if_neg h] <;> rfl
  · cases hE : extract_and_check pdfR docxR txtR filename <;>
      simp only [process_and_store_document, hE, uploadPathOf] <;> rfl

/-- Witness for the amended claim C5 at a concrete fresh id and upload. -/
theorem upload_fresh_tenant_routing_witness :
    ("f" : String) ≠ "" ∧
    (((upload_document "f" none (.ok "body") (.ok "body") (.ok "body") "notes.txt").map
        (fun r => r.vectorstore_path)).toOption.getD (create_user_vectorstore "f") =
      create_user_vectorstore "f" ∧
    create_user_vectorstore "f" ≠ data_dir ∧
    ((process_and_store_document (.ok "body") (.ok "body") (.ok "body") none "notes.txt").map
        (fun r => r.vectorstore_path)).toOption.getD data_dir = data_dir) :=
  ⟨by decide,
    upload_fresh_tenant_routing "f" (.ok "body") (.ok "body") (.ok "body") "notes.txt" (by decide)⟩

/- ================= Claim C6 ================= -/

/-- Counterexample to claim C6: with the Gemini backend selected at process
start, a failure of the live generation call during one request is not
mapped to the fallback output for that call; it propagates and the request
fails with HTTP 500. -/
theorem live_generation_failure_returns_500 :
    generate_answer true (.error "ResourceExhausted: 429 quota exceeded")
        ["What does my document say?"] = .error 500 ∧
    generate_answer true (.error "ResourceExhausted: 429 quota exceeded")
        ["What does my document say?"] ≠
      .ok (mock_generate ["What does my document say?"]) :=
  ⟨rfl, fun h => Except.noConfusion h⟩

/-- Claim C6 as amended: the fallback backend is selected once, at process
construction — when the live backend fails to initialize, the mock backend
serves every call and never raises — while a failure of an individual live
generation call is not caught at the generate boundary and surfaces to the
caller as an HTTP 500 request failure. -/
theorem backend_fallback_is_construction_time (geminiResult : Except String String)
    (messages : List String) (errMsg : String) :
    LLM_invoke (LLM_init false) geminiResult messages = .ok (mock_generate messages) ∧
    generate_answer false geminiResult messages = .ok (mock_generate messages) ∧
    generate_answer true (.error errMsg) messages = .error 500 :=
  ⟨rfl, rfl, rfl⟩

/- ================= Claim C7 ================= -/

/-- Claim C7: classified into the spec taxonomy, the upload validation and
extraction stage fails with UnsupportedMediaType exactly when the declared
type (the lowercased filename suffix) is outside the supported set, fails
with ExtractionFailed when the underlying decoder errors or the extracted
content is empty or whitespace-only, and otherwise returns the text —
stated as an equation with the claim-side specification. -/
theorem extraction_error_taxonomy (pdfR docxR txtR : Except String String) (filename : String) :
    (extract_and_check pdfR docxR txtR filename).mapError errClass =
      extraction_spec pdfR docxR txtR filename := by
  unfold extract_and_check extraction_spec extract_text_from_file allowed_extensions
  by_cases hm : pyLower (pySuffix filename) ∈ [".pdf", ".docx", ".txt", ".md"]
  · rw [if_pos hm, if_pos hm]
    simp only [List.mem_cons, List.not_mem_nil, or_false] at hm
    rcases hm with h | h | h | h <;> rw [h]
    · cases pdfR with
      | error e => rfl
      | ok t => by_cases hs : pyStrip t = "" <;> simp [Except.mapError, hs, errClass]
    · cases docxR with
      | error e => rfl
      | ok t => by_cases hs : pyStrip t = "" <;> simp [Except.mapError, hs, errClass]
    · cases txtR with
      | error e => rfl
      | ok t => by_cases hs : pyStrip t = "" <;> simp [Except.mapError, hs, errClass]
    · cases txtR with
      | error e => rfl
      | ok t => by_cases hs : pyStrip t = "" <;> simp [Except.mapError, hs, errClass]
  · rw [if_neg hm, if_neg hm]
    rfl

/- ================= Claim C8 ================= -/

/-- Deleting by the ids of the records whose source matches is the same as
filtering the matching source out, provided record ids are unique in the
store (they are: Chroma assigns a fresh id per inserted record). -/
theorem delete_filter_eq (recs : List ChromaRecord) (name : String)
    (hids : (recs.map (fun r => r.rid)).Nodup) :
    recs.filter (fun r =>
        !(decide (r.rid ∈ (recs.filter (fun r2 => r2.source == name)).map (fun r2 => r2.rid)))) =
      recs.filter (fun r => !(r.source == name)) := by
  apply List.filter_congr
  intro r hr
  have hdec : decide (r.rid ∈ (recs.filter (fun r2 => r2.source == name)).map (fun r2 => r2.rid)) =
      (r.source == name) := by
    cases hsrc : r.source == name
    · simp only [decide_eq_false_iff_not]
      intro hmem
      obtain ⟨r2, hr2m, hrid⟩ := List.mem_map.mp hmem
      have hr2 := List.mem_filter.mp hr2m
      have heq : r2 = r := List.inj_on_of_nodup_map hids hr2.1 hr hrid
      rw [heq] at hr2
      simp [hr2.2] at hsrc
    · simp only [decide_eq_true_eq]
      exact List.mem_map.mpr ⟨r, List.mem_filter.mpr ⟨hr, hsrc⟩, rfl⟩
  rw [hdec]

/-- Claim C8: for every store and document name, deletion removes exactly
the records whose source metadata equals the name (stated as an equation
with the claim-side specification), the chunk count of every other document
is unchanged, no record of the deleted document remains, and the call fails
with NotFound (404) when zero records match. -/
theorem delete_document_exact (stores : String → Option (List ChromaRecord))
    (user_id document_name other : String) (recs : List ChromaRecord)
    (hst : stores (create_user_vectorstore user_id) = some recs)
    (hids : (recs.map (fun r => r.rid)).Nodup)
    (hother : other ≠ document_name) :
    delete_user_document stores user_id document_name = delete_document_spec recs document_name ∧
    (recs.filter (fun r => !(r.source == document_name))).countP
        (fun r => r.source == other) = recs.countP (fun r => r.source == other) ∧
    (recs.filter (fun r => !(r.source == document_name))).countP
        (fun r => r.source == document_name) = 0 := by
  refine ⟨?_, ?_, ?_⟩
  · unfold delete_user_document delete_document_spec
    rw [hst, List.countP_eq_length_filter]
    by_cases hz : (recs.filter (fun r => r.source == document_name)).length = 0
    · have he : (recs.filter (fun r => r.source == document_name)).isEmpty = true :=
        List.isEmpty_iff_length_eq_zero.mpr hz
      simp [he, hz]
    · have he : (recs.filter (fun r => r.source == document_name)).isEmpty = false := by
        rw [Bool.eq_false_iff]
        intro hh
        exact hz (List.isEmpty_iff_length_eq_zero.mp hh)
      simp only [he, hz, if_false, Bool.false_eq_true, if_neg (fun hh => hz hh)]
      rw [delete_filter_eq recs document_name hids]
  · rw [List.countP_filter]
    apply List.countP_congr
    intro r _
    simp only [Bool.and_eq_true, Bool.not_eq_true', beq_eq_false_iff_ne]
    constructor
    · exact fun h => h.1
    · intro hso
      refine ⟨hso, ?_⟩
      rw [eq_of_beq hso]
      exact hother
  · rw [List.countP_filter]
    simp [Bool.and_not_self]

/-- Witness for claim C8 at a concrete store holding two documents: report.pdf
with two chunks and notes.txt with one chunk. -/
theorem delete_document_exact_witness :
    ((fun p => if p = create_user_vectorstore "u1"
        then some [({ rid := 0, source := "report.pdf", chunk_id := 0 } : ChromaRecord),
                   { rid := 1, source := "report.pdf", chunk_id := 1 },
                   { rid := 2, source := "notes.txt", chunk_id := 0 }]
        else none) (create_user_vectorstore "u1") =
      some [({ rid := 0, source := "report.pdf", chunk_id := 0 } : ChromaRecord),
            { rid := 1, source := "report.pdf", chunk_id := 1 },
            { rid := 2, source := "notes.txt", chunk_id := 0 }]) ∧
    (([({ rid := 0, source := "report.pdf", chunk_id := 0 } : ChromaRecord),
       { rid := 1, source := "report.pdf", chunk_id := 1 },
       { rid := 2, source := "notes.txt", chunk_id := 0 }].map (fun r => r.rid)).Nodup) ∧
    ("notes.txt" : String) ≠ "report.pdf" ∧
    (delete_user_document
        (fun p => if p = create_user_vectorstore "u1"
          then some [({ rid := 0, source := "report.pdf", chunk_id := 0 } : ChromaRecord),
                     { rid := 1, source := "report.pdf", chunk_id := 1 },
                     { rid := 2, source := "notes.txt", chunk_id := 0 }]
          else none) "u1" "report.pdf" =
      delete_document_spec
        [({ rid := 0, source := "report.pdf", chunk_id := 0 } : ChromaRecord),
         { rid := 1, source := "report.pdf", chunk_id := 1 },
         { rid := 2, source := "notes.txt", chunk_id := 0 }] "report.pdf" ∧
    ([({ rid := 0, source := "report.pdf", chunk_id := 0 } : ChromaRecord),
      { rid := 1, source := "report.pdf", chunk_id := 1 },
      { rid := 2, source := "notes.txt", chunk_id := 0 }].filter
        (fun r => !(r.source == "report.pdf"))).countP (fun r => r.source == "notes.txt") =
      [({ rid := 0, source := "report.pdf", chunk_id := 0 } : ChromaRecord),
       { rid := 1, source := "report.pdf", chunk_id := 1 },
       { rid := 2, source := "notes.txt", chunk_id := 0 }].countP
        (fun r => r.source == "notes.txt") ∧
    ([({ rid := 0, source := "report.pdf", chunk_id := 0 } : ChromaRecord),
      { rid := 1, source := "report.pdf", chunk_id := 1 },
      { rid := 2, source := "notes.txt", chunk_id := 0 }].filter
        (fun r => !(r.source == "report.pdf"))).countP (fun r => r.source == "report.pdf") = 0) :=
  ⟨by decide, by decide, by decide,
    delete_document_exact
      (fun p => if p = create_user_vectorstore "u1"
        then some [({ rid := 0, source := "report.pdf", chunk_id := 0 } : ChromaRecord),
                   { rid := 1, source := "report.pdf", chunk_id := 1 },
                   { rid := 2, source := "notes.txt", chunk_id := 0 }]
        else none) "u1" "report.pdf" "notes.txt" _ (by decide) (by decide) (by decide)⟩

/- ================= Claim C10 ================= -/

/-- Claim C10: extraction of a txt or md file never fails because of
character encoding: when the external UTF-8 codec raises, the file is
re-read as latin-1, which decodes every byte sequence totally, one
character per byte, so the call always returns a string. -/
theorem txt_extraction_never_fails_on_encoding (utf8_decode : List (Fin 256) → Option String)
    (bs : List (Fin 256)) :
    (extract_text_from_txt utf8_decode bs).isOk = true ∧
    (latin1_decode bs).length = bs.length := by
  constructor
  · unfold extract_text_from_txt
    cases utf8_decode bs <;> rfl
  · unfold latin1_decode
    simp [String.length]
